import Mathlib

/-
Verification of the embedded-midi crate: a shallow embedding of the
streaming MIDI 1.0 parser (src/parser.rs), the running-status renderer
(src/lib.rs) and the message/value model (src/midi.rs).  Bytes are
modelled as Nat (all inputs of interest are below 256), machine structs
as Lean structures, and the fallible serial transport as a mock byte
sink whose per-write outcome is prescribed by a function.
-/

set_option maxRecDepth 4096

namespace EmbeddedMidi

/-! ## Value model (src/midi.rs) -/

abbrev Channel := Nat
abbrev Note := Nat
abbrev Control := Nat
abbrev Program := Nat
abbrev Value7 := Nat

/-- A 14 bit Midi value stored as two 7 bit data values, mirroring the
Rust struct `Value14(u8, u8)`: component `.1` is field `.0`, component
`.2` is field `.1`. -/
abbrev Value14 := Nat × Nat

/-- Mirrors `impl From<(u8, u8)> for Value14` in src/midi.rs. -/
def value14_from_pair (value : Nat × Nat) : Value14 := (value.1, value.2)

/-- Mirrors `impl Into<(u8, u8)> for Value14` in src/midi.rs. -/
def value14_into_pair (v : Value14) : Nat × Nat := (v.1, v.2)

/-- Mirrors `impl From<u16> for Value14` in src/midi.rs:
`Value14(((value & 0x3f80) >> 7) as u8, (value & 0x007f) as u8)`. -/
def value14_from_u16 (value : Nat) : Value14 :=
  ((value &&& 0x3f80) >>> 7, value &&& 0x007f)

/-- Mirrors `impl Into<u16> for Value14` in src/midi.rs:
`(self.0 as u16) * 128 + self.1 as u16`. -/
def value14_into_u16 (v : Value14) : Nat := v.1 * 128 + v.2

/-- The `MidiMessage` enum of src/midi.rs, one constructor per variant. -/
inductive MidiMessage where
  | NoteOff (channel : Channel) (note : Note) (velocity : Value7)
  | NoteOn (channel : Channel) (note : Note) (velocity : Value7)
  | KeyPressure (channel : Channel) (note : Note) (value : Value7)
  | ControlChange (channel : Channel) (control : Control) (value : Value7)
  | ProgramChange (channel : Channel) (program : Program)
  | ChannelPressure (channel : Channel) (value : Value7)
  | PitchBendChange (channel : Channel) (value : Value14)
  | SystemExclusive (manufacturer_id : Nat)
  | SystemExclusiveData (value : Value7)
  | EndOfExclusive
  | QuarterFrame (values : Value7)
  | SongPositionPointer (pointer : Value14)
  | SongSelect (value : Value7)
  | TuneRequest
  | TimingClock
  | Start
  | Continue
  | Stop
  | ActiveSensing
  | Reset
  deriving DecidableEq, Repr

/-! ## Parser (src/parser.rs) -/

/-- The `MidiParserState` enum of src/parser.rs. -/
inductive MidiParserState where
  | Idle
  | NoteOnRecvd (channel : Channel)
  | NoteOnNoteRecvd (channel : Channel) (note : Note)
  | NoteOffRecvd (channel : Channel)
  | NoteOffNoteRecvd (channel : Channel) (note : Note)
  | KeyPressureRecvd (channel : Channel)
  | KeyPressureNoteRecvd (channel : Channel) (note : Note)
  | ControlChangeRecvd (channel : Channel)
  | ControlChangeControlRecvd (channel : Channel) (control : Control)
  | ProgramChangeRecvd (channel : Channel)
  | ChannelPressureRecvd (channel : Channel)
  | PitchBendRecvd (channel : Channel)
  | PitchBendFirstByteRecvd (channel : Channel) (byte1 : Nat)
  | QuarterFrameRecvd
  | SongPositionRecvd
  | SongPositionLsbRecvd (lsb : Nat)
  deriving DecidableEq, Repr

/-- `fn is_status_byte`: check if the most significant bit is set. -/
def is_status_byte (byte : Nat) : Bool := byte &&& 0x80 == 0x80

/-- `fn is_system_message`: check for the 0x1111xxxx pattern. -/
def is_system_message (byte : Nat) : Bool := byte &&& 0xf0 == 0xf0

/-- `fn split_message_and_channel`: split a channel voice status byte. -/
def split_message_and_channel (byte : Nat) : Nat × Channel :=
  (byte &&& 0xf0, byte &&& 0x0f)

/-- The `match byte` block of `parse_byte` taken when the byte is a system
message (status byte with top nibble 0xF), src/parser.rs lines 65-113.
Returns the new parser state and the optional emitted message; the system
realtime arms leave the state untouched, exactly as the Rust arms do. -/
def systemStep (state : MidiParserState) (byte : Nat) :
    MidiParserState × Option MidiMessage :=
  if byte == 0xf0 then (.Idle, none)
  else if byte == 0xf1 then (.QuarterFrameRecvd, none)
  else if byte == 0xf2 then (.SongPositionRecvd, none)
  else if byte == 0xf3 then (.Idle, none)
  else if byte == 0xf6 then (.Idle, some .TuneRequest)
  else if byte == 0xf7 then (.Idle, some .EndOfExclusive)
  else if byte == 0xf8 then (state, some .TimingClock)
  else if byte == 0xf9 then (state, none)
  else if byte == 0xfa then (state, some .Start)
  else if byte == 0xfb then (state, some .Continue)
  else if byte == 0xfc then (state, some .Stop)
  else if byte == 0xfd then (state, none)
  else if byte == 0xfe then (state, some .ActiveSensing)
  else if byte == 0xff then (state, some .Reset)
  else (.Idle, none)

/-- The channel voice block of `parse_byte`, src/parser.rs lines 114-149. -/
def voiceStep (state : MidiParserState) (byte : Nat) :
    MidiParserState × Option MidiMessage :=
  let mc := split_message_and_channel byte
  let message := mc.1
  let channel := mc.2
  if message == 0x80 then (.NoteOffRecvd channel, none)
  else if message == 0x90 then (.NoteOnRecvd channel, none)
  else if message == 0xA0 then (.KeyPressureRecvd channel, none)
  else if message == 0xB0 then (.ControlChangeRecvd channel, none)
  else if message == 0xC0 then (.ProgramChangeRecvd channel, none)
  else if message == 0xD0 then (.ChannelPressureRecvd channel, none)
  else if message == 0xE0 then (.PitchBendRecvd channel, none)
  else (state, none)

/-- The data byte block of `parse_byte` (the `match self.state` on a byte
with top bit clear), src/parser.rs lines 151-259.  The arms that emit a
one-data-byte message without assigning `self.state` keep the state
unchanged, exactly as in the Rust code. -/
def dataStep (state : MidiParserState) (byte : Nat) :
    MidiParserState × Option MidiMessage :=
  match state with
  | .NoteOffRecvd channel => (.NoteOffNoteRecvd channel byte, none)
  | .NoteOffNoteRecvd channel note =>
      (.NoteOffRecvd channel, some (.NoteOff channel note byte))
  | .NoteOnRecvd channel => (.NoteOnNoteRecvd channel byte, none)
  | .NoteOnNoteRecvd channel note =>
      (.NoteOnRecvd channel, some (.NoteOn channel note byte))
  | .KeyPressureRecvd channel => (.KeyPressureNoteRecvd channel byte, none)
  | .KeyPressureNoteRecvd channel note =>
      (.KeyPressureRecvd channel, some (.KeyPressure channel note byte))
  | .ControlChangeRecvd channel =>
      (.ControlChangeControlRecvd channel byte, none)
  | .ControlChangeControlRecvd channel control =>
      (.ControlChangeRecvd channel, some (.ControlChange channel control byte))
  | .ProgramChangeRecvd channel =>
      (.ProgramChangeRecvd channel, some (.ProgramChange channel byte))
  | .ChannelPressureRecvd channel =>
      (.ChannelPressureRecvd channel, some (.ChannelPressure channel byte))
  | .PitchBendRecvd channel => (.PitchBendFirstByteRecvd channel byte, none)
  | .PitchBendFirstByteRecvd channel byte1 =>
      (.PitchBendRecvd channel,
        some (.PitchBendChange channel (value14_from_pair (byte1, byte))))
  | .SongPositionRecvd => (.SongPositionLsbRecvd byte, none)
  | .SongPositionLsbRecvd lsb =>
      (.SongPositionRecvd,
        some (.SongPositionPointer (value14_from_pair (lsb, byte))))
  | .QuarterFrameRecvd => (.QuarterFrameRecvd, some (.QuarterFrame byte))
  | .Idle => (.Idle, none)

/-- `MidiParser::parse_byte`, src/parser.rs lines 62-261, as a pure
function from (state, byte) to (new state, optional emitted message). -/
def parseByte (state : MidiParserState) (byte : Nat) :
    MidiParserState × Option MidiMessage :=
  if is_status_byte byte then
    if is_system_message byte then systemStep state byte
    else voiceStep state byte
  else dataStep state byte

/-- Feed a list of bytes to the parser one by one, collecting the emitted
messages in order (the `filter_map` driver used by the crate's tests). -/
def parseBytes (state : MidiParserState) : List Nat → List MidiMessage
  | [] => []
  | b :: rest =>
    match parseByte state b with
    | (s2, some msg) => msg :: parseBytes s2 rest
    | (s2, none) => parseBytes s2 rest

/-! ## Renderer (src/lib.rs) -/

/-- A mock serial byte sink: the outcome of the i-th write attempt is
prescribed by `failAt` (none = the byte is accepted, some e = the write
fails with transport error e). -/
structure MockTx (ε : Type) where
  failAt : Nat → Option ε
  count : Nat
  written : List Nat

/-- One call of `block!(self.tx.write(b))`: either fails with the
transport's own error value or appends the byte to the sink. -/
def txWrite {ε : Type} (t : MockTx ε) (b : Nat) : MockTx ε × Option ε :=
  match t.failAt t.count with
  | some e => ({ t with count := t.count + 1 }, some e)
  | none => ({ t with count := t.count + 1, written := t.written ++ [b] }, none)

/-- The `MidiOut` struct of src/lib.rs: a transport plus the optional
last transmitted status byte. -/
structure MidiOut (ε : Type) where
  tx : MockTx ε
  last_status : Option Nat

/-- Write a list of data bytes in order, stopping at the first transport
error (the `for byte in data` loop of `write_channel_message`). -/
def writeData {ε : Type} (t : MockTx ε) : List Nat → MockTx ε × Option ε
  | [] => (t, none)
  | b :: rest =>
    match txWrite t b with
    | (t2, some e) => (t2, some e)
    | (t2, none) => writeData t2 rest

/-- `MidiOut::write_channel_message`, src/lib.rs lines 129-142: computes
`status = status_msb + channel`, elides the status byte when it equals
`last_status`, writes the data bytes, and only on full success records
the new `last_status`.  On a transport error the error is returned as-is
and `last_status` keeps its previous value (the Rust code returns early
before the `self.last_status = Some(status)` assignment). -/
def write_channel_message {ε : Type} (m : MidiOut ε) (status_msb channel : Nat)
    (data : List Nat) : MidiOut ε × Option ε :=
  match (if m.last_status == some (status_msb + channel) then (m.tx, none)
         else txWrite m.tx (status_msb + channel)) with
  | (t1, some e) => ({ tx := t1, last_status := m.last_status }, some e)
  | (t1, none) =>
    match writeData t1 data with
    | (t2, some e) => ({ tx := t2, last_status := m.last_status }, some e)
    | (t2, none) =>
      ({ tx := t2, last_status := some (status_msb + channel) }, none)

/-- The shape shared by the system message arms of `MidiOut::write`:
write the given bytes in order; on success set `last_status := none`
when the arm contains the `self.last_status = None` assignment
(`resetStatus = true`, the system common arms) and leave it untouched
otherwise (the system realtime arms).  On a transport error the arm
returns early, so `last_status` is unchanged. -/
def writeSys {ε : Type} (m : MidiOut ε) (bytes : List Nat)
    (resetStatus : Bool) : MidiOut ε × Option ε :=
  match writeData m.tx bytes with
  | (t2, some e) => ({ tx := t2, last_status := m.last_status }, some e)
  | (t2, none) =>
    ({ tx := t2,
       last_status := if resetStatus then none else m.last_status }, none)

/-- `MidiOut::write`, src/lib.rs lines 61-127.  Returns `none` for the
`MidiMessage` variants the renderer has no arm for (the system exclusive
variants); otherwise returns the updated renderer and the optional
transport error.  The pitch bend and song position arms destructure the
`Value14` into `(value_lsb, value_msb) = value.into()` and transmit the
two components in that order, exactly as the Rust code does. -/
def write {ε : Type} (m : MidiOut ε) (msg : MidiMessage) :
    Option (MidiOut ε × Option ε) :=
  match msg with
  | .NoteOn channel note velocity =>
      some (write_channel_message m 0x90 channel [note, velocity])
  | .NoteOff channel note velocity =>
      some (write_channel_message m 0x80 channel [note, velocity])
  | .KeyPressure channel note value =>
      some (write_channel_message m 0xA0 channel [note, value])
  | .ControlChange channel control value =>
      some (write_channel_message m 0xB0 channel [control, value])
  | .ProgramChange channel program =>
      some (write_channel_message m 0xC0 channel [program])
  | .ChannelPressure channel value =>
      some (write_channel_message m 0xD0 channel [value])
  | .PitchBendChange channel value =>
      some (write_channel_message m 0xE0 channel
        [(value14_into_pair value).1, (value14_into_pair value).2])
  | .QuarterFrame value => some (writeSys m [0xF1, value] true)
  | .SongPositionPointer value =>
      some (writeSys m
        [0xF2, (value14_into_pair value).1, (value14_into_pair value).2] true)
  | .SongSelect value => some (writeSys m [0xF3, value] true)
  | .TuneRequest => some (writeSys m [0xF6] true)
  | .TimingClock => some (writeSys m [0xF8] false)
  | .Start => some (writeSys m [0xFA] false)
  | .Continue => some (writeSys m [0xFB] false)
  | .Stop => some (writeSys m [0xFC] false)
  | .ActiveSensing => some (writeSys m [0xFE] false)
  | .Reset => some (writeSys m [0xFF] false)
  | _ => none

/-- A transport that accepts every byte. -/
def perfectTx (ε : Type) : MockTx ε :=
  { failAt := fun _ => none, count := 0, written := [] }

/-- A fresh renderer (`MidiOut::new`): `last_status = None`. -/
def freshOut (ε : Type) : MidiOut ε :=
  { tx := perfectTx ε, last_status := none }

/-- Render a single message on a fresh renderer over a perfect transport,
returning the transmitted bytes (none when the renderer has no arm for
the variant). -/
def renderMsg (msg : MidiMessage) : Option (List Nat) :=
  match write (freshOut Unit) msg with
  | some (m2, none) => some m2.tx.written
  | _ => none

/-- Write a list of messages in order, failing when any write has no arm
or reports a transport error. -/
def writeList {ε : Type} (m : MidiOut ε) :
    List MidiMessage → Option (MidiOut ε)
  | [] => some m
  | msg :: rest =>
    match write m msg with
    | some (m2, none) => writeList m2 rest
    | _ => none

/-- Render a list of messages on a fresh renderer over a perfect
transport, returning the full transmitted byte sequence. -/
def renderList (msgs : List MidiMessage) : Option (List Nat) :=
  (writeList (freshOut Unit) msgs).map (fun m => m.tx.written)

/-! ## Receiver (src/lib.rs, MidiIn) -/

/-- The `nb::Error` type: either the operation would block or the
transport reported its own error. -/
inductive NbError (ε : Type) where
  | wouldBlock
  | other (e : ε)
  deriving DecidableEq, Repr

/-- `MidiIn::read`, src/lib.rs lines 30-37: read one byte from the
transport (propagating its error, including would-block, via `?`), feed
it to the parser, and return the parsed message or `WouldBlock` when no
message completed.  The transport's answer for this call is passed in as
`item`. -/
def midiIn_read {ε : Type} (item : Except (NbError ε) Nat)
    (p : MidiParserState) :
    MidiParserState × Except (NbError ε) MidiMessage :=
  match item with
  | .error e => (p, .error e)
  | .ok byte =>
    match parseByte p byte with
    | (p2, some msg) => (p2, .ok msg)
    | (p2, none) => (p2, .error .wouldBlock)

/-! ## Spec-side predicates used to state the claims -/

/-- The realtime decode table stated by the claims: TimingClock for 0xF8,
Start for 0xFA, Continue for 0xFB, Stop for 0xFC, ActiveSensing for
0xFE, Reset for 0xFF, nothing for the reserved 0xF9 and 0xFD. -/
def realtimeMessage (b : Nat) : Option MidiMessage :=
  if b == 0xF8 then some .TimingClock
  else if b == 0xFA then some .Start
  else if b == 0xFB then some .Continue
  else if b == 0xFC then some .Stop
  else if b == 0xFE then some .ActiveSensing
  else if b == 0xFF then some .Reset
  else none

/-- Field validity of a message: channels below 16, every 7-bit data
field below 128. -/
def validMsg : MidiMessage → Bool
  | .NoteOff c n v => decide (c < 16) && decide (n < 128) && decide (v < 128)
  | .NoteOn c n v => decide (c < 16) && decide (n < 128) && decide (v < 128)
  | .KeyPressure c n v =>
      decide (c < 16) && decide (n < 128) && decide (v < 128)
  | .ControlChange c n v =>
      decide (c < 16) && decide (n < 128) && decide (v < 128)
  | .ProgramChange c p => decide (c < 16) && decide (p < 128)
  | .ChannelPressure c v => decide (c < 16) && decide (v < 128)
  | .PitchBendChange c val =>
      decide (c < 16) && decide (val.1 < 128) && decide (val.2 < 128)
  | .SystemExclusive _ => true
  | .SystemExclusiveData v => decide (v < 128)
  | .EndOfExclusive => true
  | .QuarterFrame v => decide (v < 128)
  | .SongPositionPointer val => decide (val.1 < 128) && decide (val.2 < 128)
  | .SongSelect v => decide (v < 128)
  | .TuneRequest => true
  | .TimingClock => true
  | .Start => true
  | .Continue => true
  | .Stop => true
  | .ActiveSensing => true
  | .Reset => true

/-- Recognizer for the SongSelect variant. -/
def isSongSel : MidiMessage → Bool
  | .SongSelect _ => true
  | _ => false

/-- The system common messages the renderer can write. -/
def isSystemCommonW : MidiMessage → Bool
  | .QuarterFrame _ => true
  | .SongPositionPointer _ => true
  | .SongSelect _ => true
  | .TuneRequest => true
  | _ => false

/-- The system realtime messages. -/
def isRealtimeMsg : MidiMessage → Bool
  | .TimingClock => true
  | .Start => true
  | .Continue => true
  | .Stop => true
  | .ActiveSensing => true
  | .Reset => true
  | _ => false

/-- A transport that fails the second write attempt with error 42
(used to exercise the renderer's error path). -/
def failTx : MockTx Nat :=
  { failAt := fun k => if k == 1 then some 42 else none,
    count := 0, written := [] }

/-- A fresh renderer over `failTx`. -/
def failOut : MidiOut Nat := { tx := failTx, last_status := none }

/-! ## Helper lemmas -/

/-- A byte below 0x80 is not a status byte. -/
theorem is_status_byte_of_lt (b : Nat) (hb : b < 128) :
    is_status_byte b = false := by
  have h : b &&& 0x80 ≤ b := Nat.and_le_left
  have h2 : b &&& 0x80 ≠ 0x80 := Nat.ne_of_lt (Nat.lt_of_le_of_lt h hb)
  simp [is_status_byte, h2]

/-- On a data byte, `parse_byte` runs the data-byte dispatch. -/
theorem parseByte_data (b : Nat) (hb : b < 128) (s : MidiParserState) :
    parseByte s b = dataStep s b := by
  simp [parseByte, is_status_byte_of_lt b hb]

/-- A NoteOff status byte moves any state to `NoteOffRecvd`. -/
theorem parseByte_status_0x80 (c : Nat) (hc : c < 16) (s : MidiParserState) :
    parseByte s (0x80 + c) = (.NoteOffRecvd c, none) := by
  interval_cases c <;> rfl

/-- A NoteOn status byte moves any state to `NoteOnRecvd`. -/
theorem parseByte_status_0x90 (c : Nat) (hc : c < 16) (s : MidiParserState) :
    parseByte s (0x90 + c) = (.NoteOnRecvd c, none) := by
  interval_cases c <;> rfl

/-- A KeyPressure status byte moves any state to `KeyPressureRecvd`. -/
theorem parseByte_status_0xA0 (c : Nat) (hc : c < 16) (s : MidiParserState) :
    parseByte s (0xA0 + c) = (.KeyPressureRecvd c, none) := by
  interval_cases c <;> rfl

/-- A ControlChange status byte moves any state to `ControlChangeRecvd`. -/
theorem parseByte_status_0xB0 (c : Nat) (hc : c < 16) (s : MidiParserState) :
    parseByte s (0xB0 + c) = (.ControlChangeRecvd c, none) := by
  interval_cases c <;> rfl

/-- A ProgramChange status byte moves any state to `ProgramChangeRecvd`. -/
theorem parseByte_status_0xC0 (c : Nat) (hc : c < 16) (s : MidiParserState) :
    parseByte s (0xC0 + c) = (.ProgramChangeRecvd c, none) := by
  interval_cases c <;> rfl

/-- A ChannelPressure status byte moves any state to
`ChannelPressureRecvd`. -/
theorem parseByte_status_0xD0 (c : Nat) (hc : c < 16) (s : MidiParserState) :
    parseByte s (0xD0 + c) = (.ChannelPressureRecvd c, none) := by
  interval_cases c <;> rfl

/-- A PitchBend status byte moves any state to `PitchBendRecvd`. -/
theorem parseByte_status_0xE0 (c : Nat) (hc : c < 16) (s : MidiParserState) :
    parseByte s (0xE0 + c) = (.PitchBendRecvd c, none) := by
  interval_cases c <;> rfl

/-- `txWrite` never alters the transport's outcome schedule. -/
theorem txWrite_failAt {ε : Type} (t : MockTx ε) (b : Nat) :
    ((txWrite t b).1).failAt = t.failAt := by
  unfold txWrite
  cases t.failAt t.count <;> rfl

/-- When `txWrite` reports an error, that error is the one the transport
scheduled for the current write attempt. -/
theorem txWrite_err {ε : Type} (t : MockTx ε) (b : Nat) (t2 : MockTx ε)
    (e : ε) (h : txWrite t b = (t2, some e)) : t.failAt t.count = some e := by
  unfold txWrite at h
  cases hf : t.failAt t.count with
  | none => rw [hf] at h; simp at h
  | some e2 => rw [hf] at h; simp at h; exact congrArg some h.2

/-- When `writeData` reports an error, the error value originates from
the transport's schedule. -/
theorem writeData_err {ε : Type} (data : List Nat) (t t2 : MockTx ε) (e : ε)
    (h : writeData t data = (t2, some e)) : ∃ k, t.failAt k = some e := by
  induction data generalizing t with
  | nil => simp [writeData] at h
  | cons b rest ih =>
    unfold writeData at h
    cases hw : txWrite t b with
    | mk t1 oe =>
      rw [hw] at h
      cases oe with
      | some e1 =>
        simp at h
        exact ⟨t.count, h.2 ▸ txWrite_err t b t1 e1 hw⟩
      | none =>
        obtain ⟨k, hk⟩ := ih t1 h
        have hpres : t1.failAt = t.failAt := by
          have := txWrite_failAt t b
          rw [hw] at this
          exact this
        exact ⟨k, hpres ▸ hk⟩

/-! ## Claim theorems -/

/-- Claim C2: for every parser state s and every byte b in 0xF8..=0xFF,
`parse_byte` leaves the state exactly equal to s and emits the realtime
message given by the table (nothing for the reserved 0xF9 and 0xFD); and
feeding [0xD6, 0xF8, 0x77] to a fresh parser yields exactly
[TimingClock, ChannelPressure 6 0x77] in that order. -/
theorem c2_realtime_transparency (s : MidiParserState) (b : Nat)
    (h1 : 0xF8 ≤ b) (h2 : b ≤ 0xFF) :
    parseByte s b = (s, realtimeMessage b) ∧
    parseBytes .Idle [0xD6, 0xF8, 0x77] =
      [.TimingClock, .ChannelPressure 6 0x77] := by
  refine ⟨?_, by decide⟩
  interval_cases b <;> rfl

/-- Witness for C2 at a nontrivial in-progress state and b = 0xFE. -/
theorem c2_realtime_transparency_witness :
    parseByte (.SongPositionLsbRecvd 0x12) 0xFE =
      (.SongPositionLsbRecvd 0x12, some .ActiveSensing) ∧
    parseBytes .Idle [0xD6, 0xF8, 0x77] =
      [.TimingClock, .ChannelPressure 6 0x77] := by
  have h := c2_realtime_transparency (.SongPositionLsbRecvd 0x12) 0xFE
    (by decide) (by decide)
  simpa [realtimeMessage] using h

/-- Claim C3: on a fresh renderer, two NoteOn messages on the same
channel elide the second status byte; the same two NoteOn messages on
different channels do not; and NoteOn followed by NoteOff on the same
channel transmits both status bytes. -/
theorem c3_running_status_bytes :
    renderList [.NoteOn 2 0x76 0x34, .NoteOn 2 0x33 0x65] =
      some [0x92, 0x76, 0x34, 0x33, 0x65] ∧
    renderList [.NoteOn 2 0x76 0x34, .NoteOn 3 0x33 0x65] =
      some [0x92, 0x76, 0x34, 0x93, 0x33, 0x65] ∧
    renderList [.NoteOn 2 0x76 0x34, .NoteOff 2 0x33 0x65] =
      some [0x92, 0x76, 0x34, 0x82, 0x33, 0x65] := by
  refine ⟨rfl, rfl, rfl⟩

/-- Claim C5 (failing input evaluation): the parser handles the 0xF3
status byte by resetting to Idle, so the byte sequence [0xF3, 0x05]
emits no message at all instead of SongSelect 5. -/
theorem c5_song_select_dropped :
    parseByte .Idle 0xF3 = (.Idle, none) ∧
    parseBytes .Idle [0xF3, 0x05] = [] ∧
    parseBytes .Idle [0xF3, 0x05] ≠ [.SongSelect 0x05] := by
  refine ⟨rfl, rfl, by decide⟩

/-- Claim C6 (failing input evaluation): feeding [0xF2, 0x01, 0x00]
emits SongPositionPointer (0x01, 0x00), whose `Into<u16>` conversion is
0x01 * 128 + 0x00 = 128 — the first (LSB) wire byte is scaled by 128 —
whereas the claim's formula msb*128+lsb gives 0x00 * 128 + 0x01 = 1. -/
theorem c6_value14_msb_lsb_swapped :
    parseBytes .Idle [0xF2, 0x01, 0x00] = [.SongPositionPointer (0x01, 0x00)] ∧
    value14_into_u16 (0x01, 0x00) = 128 ∧
    value14_into_u16 (0x01, 0x00) ≠ 0x00 * 128 + 0x01 := by
  refine ⟨rfl, rfl, by decide⟩

/-- Claim C7 counterexample: after a complete QuarterFrame or
SongPositionPointer, a further data byte with no intervening status byte
DOES produce another message: [0xF1, 0x7F, 0x56] parses to two
QuarterFrame messages and [0xF2, 0x7F, 0x68, 0x23, 0x7B] parses to two
SongPositionPointer messages, contradicting the claim that the extra
data bytes produce nothing. -/
theorem c7_system_common_counterexample :
    parseBytes .Idle [0xF1, 0x7F, 0x56] =
      [.QuarterFrame 0x7F, .QuarterFrame 0x56] ∧
    parseBytes .Idle [0xF1, 0x7F, 0x56] ≠ [.QuarterFrame 0x7F] ∧
    parseBytes .Idle [0xF2, 0x7F, 0x68, 0x23, 0x7B] =
      [.SongPositionPointer (0x7F, 0x68), .SongPositionPointer (0x23, 0x7B)] ∧
    parseBytes .Idle [0xF2, 0x7F, 0x68, 0x23, 0x7B] ≠
      [.SongPositionPointer (0x7F, 0x68)] := by
  refine ⟨rfl, by decide, rfl, by decide⟩

/-- Claim C7 amended: QuarterFrame and SongPositionPointer support
running status on the decode side: after emitting, the parser stays in
the corresponding awaiting-data state, so a further data byte produces
another message of the same kind. -/
theorem c7_system_common_running_status (d l m : Nat)
    (hd : d < 128) (hm : m < 128) :
    parseByte .QuarterFrameRecvd d =
      (.QuarterFrameRecvd, some (.QuarterFrame d)) ∧
    parseByte (.SongPositionLsbRecvd l) m =
      (.SongPositionRecvd, some (.SongPositionPointer (l, m))) ∧
    parseByte .SongPositionRecvd d = (.SongPositionLsbRecvd d, none) := by
  refine ⟨?_, ?_, ?_⟩
  · rw [parseByte_data d hd]; rfl
  · rw [parseByte_data m hm]; rfl
  · rw [parseByte_data d hd]; rfl

/-- Witness for the amended C7 at d = 0x56, l = 0x7F, m = 0x68. -/
theorem c7_system_common_running_status_witness :
    parseByte .QuarterFrameRecvd 0x56 =
      (.QuarterFrameRecvd, some (.QuarterFrame 0x56)) ∧
    parseByte (.SongPositionLsbRecvd 0x7F) 0x68 =
      (.SongPositionRecvd, some (.SongPositionPointer (0x7F, 0x68))) ∧
    parseByte .SongPositionRecvd 0x56 = (.SongPositionLsbRecvd 0x56, none) :=
  c7_system_common_running_status 0x56 0x7F 0x68 (by decide) (by decide)

/-- Claim C8: `parse_byte` is total — for every state and byte it
returns either some message or none, never an error — and a data byte
arriving while the parser is idle is discarded, emitting nothing and
leaving the state unchanged. -/
theorem c8_total_and_idle_discard (s : MidiParserState) (b : Nat)
    (hb : b ≤ 255) :
    ((parseByte s b).2 = none ∨ ∃ msg, (parseByte s b).2 = some msg) ∧
    (b < 128 → parseByte .Idle b = (.Idle, none)) := by
  constructor
  · cases h : (parseByte s b).2 with
    | none => exact Or.inl rfl
    | some msg => exact Or.inr ⟨msg, rfl⟩
  · intro h128
    rw [parseByte_data b h128]
    rfl

/-- Witness for C8 at the idle state and the data byte 0x33. -/
theorem c8_total_and_idle_discard_witness :
    ((parseByte .Idle 0x33).2 = none ∨
      ∃ msg, (parseByte .Idle 0x33).2 = some msg) ∧
    (0x33 < 128 → parseByte .Idle 0x33 = (.Idle, none)) :=
  c8_total_and_idle_discard .Idle 0x33 (by decide)

/-- Claim C9: when a transport write fails during
`write_channel_message`, the returned error is exactly a value produced
by the transport (the renderer adds no error variants of its own) and
`last_status` is left unchanged — it is only updated after all bytes of
the message have been written. -/
theorem c9_error_preserves_last_status (ε : Type) (m : MidiOut ε)
    (status_msb channel : Nat) (data : List Nat) (e : ε)
    (h : (write_channel_message m status_msb channel data).2 = some e) :
    (write_channel_message m status_msb channel data).1.last_status =
      m.last_status ∧
    ∃ k, m.tx.failAt k = some e := by
  have hfirst : ∀ t1 e1,
      (if m.last_status == some (status_msb + channel) then
        ((m.tx, none) : MockTx ε × Option ε)
       else txWrite m.tx (status_msb + channel)) = (t1, some e1) →
      m.tx.failAt m.tx.count = some e1 := by
    intro t1 e1 heq
    by_cases hls : (m.last_status == some (status_msb + channel)) = true
    · rw [if_pos hls] at heq; simp at heq
    · rw [if_neg hls] at heq
      exact txWrite_err m.tx (status_msb + channel) t1 e1 heq
  have hfirst_fa : ∀ t1,
      (if m.last_status == some (status_msb + channel) then
        ((m.tx, none) : MockTx ε × Option ε)
       else txWrite m.tx (status_msb + channel)) = (t1, none) →
      t1.failAt = m.tx.failAt := by
    intro t1 heq
    by_cases hls : (m.last_status == some (status_msb + channel)) = true
    · rw [if_pos hls] at heq
      simp at heq
      rw [← heq]
    · rw [if_neg hls] at heq
      have hp := txWrite_failAt m.tx (status_msb + channel)
      rw [heq] at hp
      exact hp
  unfold write_channel_message at h ⊢
  split at h
  next t1 e1 heq =>
    simp at h
    refine ⟨by simp, m.tx.count, ?_⟩
    rw [hfirst t1 e1 heq]
    exact congrArg some h
  next t1 heq =>
    split at h
    next t2 e2 heq2 =>
      simp at h
      refine ⟨by simp, ?_⟩
      obtain ⟨k, hk⟩ := writeData_err data t1 t2 e2 heq2
      refine ⟨k, ?_⟩
      rw [← hfirst_fa t1 heq, hk]
      exact congrArg some h
    next t2 heq2 =>
      simp at h

/-- Witness for C9: a transport that fails the second write with error
42 makes `write_channel_message` fail after the status byte, with
`last_status` still none. -/
theorem c9_error_preserves_last_status_witness :
    (write_channel_message failOut 0x90 2 [0x76, 0x34]).1.last_status =
      failOut.last_status ∧
    ∃ k, failOut.tx.failAt k = some 42 :=
  c9_error_preserves_last_status Nat failOut 0x90 2 [0x76, 0x34] 42 rfl

/-- Claim C10: `MidiIn::read` propagates any transport error (including
would-block) untouched; when a byte is read but does not complete a
message it consumes the byte, advances the parser and returns
Err(WouldBlock); and it returns Ok(message) exactly on the call whose
byte completes a message. -/
theorem c10_read_would_block (ε : Type) (p : MidiParserState) (b : Nat) :
    (∀ e, midiIn_read (ε := ε) (.error e) p = (p, .error e)) ∧
    (∀ q, parseByte p b = (q, none) →
      midiIn_read (ε := ε) (.ok b) p = (q, .error .wouldBlock)) ∧
    (∀ q msg, parseByte p b = (q, some msg) →
      midiIn_read (ε := ε) (.ok b) p = (q, .ok msg)) := by
  refine ⟨fun e => rfl, fun q h => ?_, fun q msg h => ?_⟩ <;>
    simp [midiIn_read, h]

/-- Witness for C10: a would-block transport propagates; the byte 0x90
is consumed without a message and returns would-block; the byte 0xF8
completes TimingClock. -/
theorem c10_read_would_block_witness :
    midiIn_read (ε := Unit) (.error .wouldBlock) .Idle =
      (.Idle, .error .wouldBlock) ∧
    midiIn_read (ε := Unit) (.ok 0x90) .Idle =
      (.NoteOnRecvd 0, .error .wouldBlock) ∧
    midiIn_read (ε := Unit) (.ok 0xF8) .Idle = (.Idle, .ok .TimingClock) :=
  ⟨(c10_read_would_block Unit .Idle 0x90).1 .wouldBlock,
   (c10_read_would_block Unit .Idle 0x90).2.1 (.NoteOnRecvd 0) rfl,
   (c10_read_would_block Unit .Idle 0xF8).2.2 .Idle .TimingClock rfl⟩

/-- Claim C4 counterexample: after writing NoteOn(2,0x76,0x34) and then
the realtime message TimingClock, `last_status` is still some 0x92 and
not none, and a NoteOn on channel 2 written right after the TimingClock
elides its status byte — the transmitted stream is
[0x92, 0x76, 0x34, 0xF8, 0x33, 0x65] with no second status byte. -/
theorem c4_realtime_keeps_last_status :
    (writeList (freshOut Unit) [.NoteOn 2 0x76 0x34, .TimingClock]).map
      (fun m => m.last_status) = some (some 0x92) ∧
    (writeList (freshOut Unit) [.NoteOn 2 0x76 0x34, .TimingClock]).map
      (fun m => m.last_status) ≠ some none ∧
    renderList [.NoteOn 2 0x76 0x34, .TimingClock, .NoteOn 2 0x33 0x65] =
      some [0x92, 0x76, 0x34, 0xF8, 0x33, 0x65] := by
  refine ⟨rfl, by decide, rfl⟩

/-- Claim C4 amended: after a successful write of a system common
message (QuarterFrame, SongPositionPointer, SongSelect, TuneRequest) the
renderer's `last_status` is none, so a channel-voice message written
next transmits its full status byte; a system realtime message leaves
`last_status` unchanged, so running status may persist across it. -/
theorem c4_system_common_resets_status (ε : Type) (m m2 : MidiOut ε)
    (msg : MidiMessage) (h : write m msg = some (m2, none)) :
    (isSystemCommonW msg = true → m2.last_status = none) ∧
    (isRealtimeMsg msg = true → m2.last_status = m.last_status) := by
  cases msg <;>
    simp [isSystemCommonW, isRealtimeMsg, write, writeSys] at h ⊢ <;>
  · cases hw : writeData m.tx _ with
    | mk t2 oe =>
      rw [hw] at h
      cases oe with
      | some e => simp at h
      | none => simp at h; rw [← h]

/-- Witness for the amended C4 at msg = TuneRequest on a fresh perfect
renderer. -/
theorem c4_system_common_resets_status_witness :
    (isSystemCommonW .TuneRequest = true →
      (MidiOut.mk (MockTx.mk (fun _ => none) 1 [0xF6]) none :
        MidiOut Unit).last_status = none) ∧
    (isRealtimeMsg .TuneRequest = true →
      (MidiOut.mk (MockTx.mk (fun _ => none) 1 [0xF6]) none :
        MidiOut Unit).last_status = (freshOut Unit).last_status) :=
  c4_system_common_resets_status Unit (freshOut Unit)
    (MidiOut.mk (MockTx.mk (fun _ => none) 1 [0xF6]) none) .TuneRequest rfl

/-- Claim C1 counterexample: rendering SongSelect 5 on a fresh renderer
produces the bytes [0xF3, 0x05], but feeding them to a fresh parser
yields no message at all instead of the single message SongSelect 5. -/
theorem c1_roundtrip_counterexample :
    renderMsg (.SongSelect 0x05) = some [0xF3, 0x05] ∧
    parseBytes .Idle [0xF3, 0x05] = [] ∧
    parseBytes .Idle [0xF3, 0x05] ≠ [.SongSelect 0x05] := by
  refine ⟨rfl, rfl, by decide⟩

/-- Claim C1 amended: for every valid MidiMessage except SongSelect,
writing it on a fresh renderer and feeding the produced byte sequence to
a fresh parser yields exactly the single message back and nothing
else. -/
theorem c1_roundtrip (msg : MidiMessage) (bs : List Nat)
    (hv : validMsg msg = true) (hns : isSongSel msg = false)
    (h : renderMsg msg = some bs) :
    parseBytes .Idle bs = [msg] := by
  cases msg with
  | NoteOff c n v =>
    simp [validMsg] at hv
    obtain ⟨⟨hc, hn⟩, hvv⟩ := hv
    have hr : renderMsg (.NoteOff c n v) = some [0x80 + c, n, v] := rfl
    rw [hr] at h
    injection h with h2
    subst h2
    simp [parseBytes, parseByte_status_0x80 c hc, parseByte_data n hn,
      parseByte_data v hvv, dataStep]
  | NoteOn c n v =>
    simp [validMsg] at hv
    obtain ⟨⟨hc, hn⟩, hvv⟩ := hv
    have hr : renderMsg (.NoteOn c n v) = some [0x90 + c, n, v] := rfl
    rw [hr] at h
    injection h with h2
    subst h2
    simp [parseBytes, parseByte_status_0x90 c hc, parseByte_data n hn,
      parseByte_data v hvv, dataStep]
  | KeyPressure c n v =>
    simp [validMsg] at hv
    obtain ⟨⟨hc, hn⟩, hvv⟩ := hv
    have hr : renderMsg (.KeyPressure c n v) = some [0xA0 + c, n, v] := rfl
    rw [hr] at h
    injection h with h2
    subst h2
    simp [parseBytes, parseByte_status_0xA0 c hc, parseByte_data n hn,
      parseByte_data v hvv, dataStep]
  | ControlChange c n v =>
    simp [validMsg] at hv
    obtain ⟨⟨hc, hn⟩, hvv⟩ := hv
    have hr : renderMsg (.ControlChange c n v) = some [0xB0 + c, n, v] := rfl
    rw [hr] at h
    injection h with h2
    subst h2
    simp [parseBytes, parseByte_status_0xB0 c hc, parseByte_data n hn,
      parseByte_data v hvv, dataStep]
  | ProgramChange c p =>
    simp [validMsg] at hv
    obtain ⟨hc, hp⟩ := hv
    have hr : renderMsg (.ProgramChange c p) = some [0xC0 + c, p] := rfl
    rw [hr] at h
    injection h with h2
    subst h2
    simp [parseBytes, parseByte_status_0xC0 c hc, parseByte_data p hp,
      dataStep]
  | ChannelPressure c v =>
    simp [validMsg] at hv
    obtain ⟨hc, hvv⟩ := hv
    have hr : renderMsg (.ChannelPressure c v) = some [0xD0 + c, v] := rfl
    rw [hr] at h
    injection h with h2
    subst h2
    simp [parseBytes, parseByte_status_0xD0 c hc, parseByte_data v hvv,
      dataStep]
  | PitchBendChange c val =>
    obtain ⟨a, b⟩ := val
    simp [validMsg] at hv
    obtain ⟨⟨hc, ha⟩, hb2⟩ := hv
    have hr : renderMsg (.PitchBendChange c (a, b)) = some [0xE0 + c, a, b] :=
      rfl
    rw [hr] at h
    injection h with h2
    subst h2
    simp [parseBytes, parseByte_status_0xE0 c hc, parseByte_data a ha,
      parseByte_data b hb2, dataStep, value14_from_pair]
  | SystemExclusive i => simp [renderMsg, write] at h
  | SystemExclusiveData v => simp [renderMsg, write] at h
  | EndOfExclusive => simp [renderMsg, write] at h
  | QuarterFrame v =>
    simp [validMsg] at hv
    have hr : renderMsg (.QuarterFrame v) = some [0xF1, v] := rfl
    rw [hr] at h
    injection h with h2
    subst h2
    have h1 : parseByte .Idle 0xF1 = (.QuarterFrameRecvd, none) := rfl
    simp [parseBytes, h1, parseByte_data v hv, dataStep]
  | SongPositionPointer val =>
    obtain ⟨a, b⟩ := val
    simp [validMsg] at hv
    obtain ⟨ha, hb2⟩ := hv
    have hr : renderMsg (.SongPositionPointer (a, b)) = some [0xF2, a, b] :=
      rfl
    rw [hr] at h
    injection h with h2
    subst h2
    have h1 : parseByte .Idle 0xF2 = (.SongPositionRecvd, none) := rfl
    simp [parseBytes, h1, parseByte_data a ha, parseByte_data b hb2,
      dataStep, value14_from_pair]
  | SongSelect v => simp [isSongSel] at hns
  | TuneRequest =>
    have hr : renderMsg .TuneRequest = some [0xF6] := rfl
    rw [hr] at h
    injection h with h2
    subst h2
    rfl
  | TimingClock =>
    have hr : renderMsg .TimingClock = some [0xF8] := rfl
    rw [hr] at h
    injection h with h2
    subst h2
    rfl
  | Start =>
    have hr : renderMsg .Start = some [0xFA] := rfl
    rw [hr] at h
    injection h with h2
    subst h2
    rfl
  | Continue =>
    have hr : renderMsg .Continue = some [0xFB] := rfl
    rw [hr] at h
    injection h with h2
    subst h2
    rfl
  | Stop =>
    have hr : renderMsg .Stop = some [0xFC] := rfl
    rw [hr] at h
    injection h with h2
    subst h2
    rfl
  | ActiveSensing =>
    have hr : renderMsg .ActiveSensing = some [0xFE] := rfl
    rw [hr] at h
    injection h with h2
    subst h2
    rfl
  | Reset =>
    have hr : renderMsg .Reset = some [0xFF] := rfl
    rw [hr] at h
    injection h with h2
    subst h2
    rfl

/-- Witness for the amended C1 at NoteOn(2, 0x76, 0x34). -/
theorem c1_roundtrip_witness :
    validMsg (.NoteOn 2 0x76 0x34) = true ∧
    renderMsg (.NoteOn 2 0x76 0x34) = some [0x92, 0x76, 0x34] ∧
    parseBytes .Idle [0x92, 0x76, 0x34] = [.NoteOn 2 0x76 0x34] :=
  ⟨by decide, by decide,
   c1_roundtrip (.NoteOn 2 0x76 0x34) [0x92, 0x76, 0x34]
     (by decide) (by decide) (by decide)⟩

end EmbeddedMidi
